import Mathlib

/-!
# Fin Easy — ledger engine and account-integrity monitor: a shallow embedding

This file embeds the core of the `fin-easy` bookkeeping backend
(`src/ledger_engine.py`, `src/account_monitor.py`, data model from
`src/database.py`) in Lean 4 and proves the behavioural claims of the
specification against it.

Modelling decisions:
* Monetary amounts (`Decimal` in the source) are modelled as `ℚ`: Python's
  `Decimal` arithmetic on the involved operations (addition, subtraction,
  comparison) is exact, and `ℚ` contains all decimal fixed-point values.
* The SQLAlchemy session/database is modelled as an explicit record `DB`
  holding the account list, the journal, the transaction lines and the
  persisted `AccountCheck` rows.  A function that commits returns an updated
  `DB`; a function whose Python counterpart raises and rolls back returns the
  unchanged `DB` together with a structured error.
* `datetime.date` is modelled as a year/month/day triple `CalDate`.
* Python `ValueError` messages that interpolate data are modelled as a
  structured error type carrying the same data.
-/

namespace FinEasy

/-- A calendar date (`datetime.date` in the source). -/
structure CalDate where
  year : Nat
  month : Nat
  day : Nat
deriving DecidableEq, Repr

/-- Row of the `accounts` table (`database.Account`). -/
structure Account where
  id : Nat
  account_code : String
  account_name : String
  account_type : String
  balance : ℚ
deriving DecidableEq, Repr

/-- Row of the `journal_entries` table (`database.JournalEntry`). -/
structure JournalEntry where
  id : Nat
  entry_date : CalDate
  entry_number : String
  description : String
  reference : Option String
deriving DecidableEq, Repr

/-- Row of the `transaction_lines` table (`database.TransactionLine`). -/
structure TransactionLine where
  journal_entry_id : Nat
  account_id : Nat
  debit_amount : ℚ
  credit_amount : ℚ
  description : String
deriving DecidableEq, Repr

/-- Row of the `account_checks` table (`database.AccountCheck`).  The
`check_date` (wall clock) and the `details` text blob (`str(result)`) are not
modelled; `status` and `check_type` carry the structured outcome. -/
structure AccountCheck where
  account_id : Nat
  check_type : String
  status : String
deriving DecidableEq, Repr

/-- The database state visible to the engine and the monitor. -/
structure DB where
  accounts : List Account
  journal : List JournalEntry
  lines : List TransactionLine
  checks : List AccountCheck
  next_entry_id : Nat
deriving DecidableEq, Repr

/-- One element of the `transactions` argument of `create_journal_entry`:
a dict `{'account_code': ..., 'debit': ..., 'credit': ..., 'description': ...}`
(absent `debit`/`credit` keys default to `0` via `t.get`). -/
structure LineInput where
  account_code : String
  debit : ℚ
  credit : ℚ
  description : String
deriving DecidableEq, Repr

/-- `session.query(Account).filter_by(account_code=code).first()`. -/
def lookupAccount (accounts : List Account) (code : String) : Option Account :=
  accounts.find? (fun a => decide (a.account_code = code))

/-- The class-dependent balance delta of `LedgerEngine._update_account_balance`:
`debit - credit` for `Asset`/`Expense`, `credit - debit` for
`Liability`/`Equity`/`Revenue`, and `0` for any other `account_type` string
(the `if`/`elif` chain falls through leaving `balance_change = Decimal(0)`). -/
def balance_change (account_type : String) (debit credit : ℚ) : ℚ :=
  if account_type = "Asset" ∨ account_type = "Expense" then
    debit - credit
  else if account_type = "Liability" ∨ account_type = "Equity" ∨ account_type = "Revenue" then
    credit - debit
  else
    0

/-- `LedgerEngine._update_account_balance`: mutate the account's balance by the
class-dependent delta of its transaction line. -/
def update_account_balance (account : Account) (line : TransactionLine) : Account :=
  { account with
    balance := account.balance
      + balance_change account.account_type line.debit_amount line.credit_amount }

/-- Apply `update_account_balance` to the (unique) session account with the
given id; the ORM identity map means later lookups see the new balance. -/
def applyLineToAccounts (accounts : List Account) (aid : Nat) (line : TransactionLine) :
    List Account :=
  accounts.map (fun a => if a.id = aid then update_account_balance a line else a)

/-- Number of journal entries recorded for a date
(`session.query(JournalEntry).filter(JournalEntry.entry_date == entry_date).count()`). -/
def countEntriesOn (journal : List JournalEntry) (d : CalDate) : Nat :=
  (journal.filter (fun e => decide (e.entry_date = d))).length

/-- Little-endian decimal digits of a natural number as characters
(the digits of Python's `str(n)`, reversed), with structural fuel: the fuel
never runs out when it is at least the number itself. -/
def toDigitsAux : Nat → Nat → List Char
  | _, 0 => []
  | 0, _ + 1 => []
  | fuel + 1, n + 1 => Nat.digitChar ((n + 1) % 10) :: toDigitsAux fuel ((n + 1) / 10)

/-- Little-endian decimal digits of a natural number. -/
def toDigitsLE (n : Nat) : List Char :=
  toDigitsAux n n

/-- Python `str(n)` for a natural number. -/
def natStr (n : Nat) : String :=
  if n = 0 then "0" else String.mk (toDigitsLE n).reverse

/-- Decode a big-endian string of decimal digit characters; leading zeros do
not change the value, so this is a left inverse of zero-padded rendering. -/
def decodeDigits (l : List Char) : Nat :=
  l.foldl (fun acc c => acc * 10 + (c.toNat - 48)) 0

/-- Python `f"{n:0{width}d}"`: decimal rendering left-padded with zeros. -/
def padNum (width n : Nat) : String :=
  let s := natStr n
  String.mk (List.replicate (width - s.length) '0') ++ s

/-- `entry_date.strftime('%Y%m%d')`. -/
def dateStr (d : CalDate) : String :=
  padNum 4 d.year ++ padNum 2 d.month ++ padNum 2 d.day

/-- `f"JE-{date_str}-{count + 1:03d}"` with the sequence number made explicit. -/
def entryNumberString (d : CalDate) (seq : Nat) : String :=
  "JE-" ++ dateStr d ++ "-" ++ padNum 3 seq

/-- `LedgerEngine._generate_entry_number`. -/
def generate_entry_number (db : DB) (entry_date : CalDate) : String :=
  entryNumberString entry_date (countEntriesOn db.journal entry_date + 1)

/-- Structured form of the `ValueError`s raised by `create_journal_entry`:
the unbalanced error message interpolates both totals, the unknown-account
message interpolates the code. -/
inductive LedgerError where
  | unbalanced (debits credits : ℚ)
  | accountNotFound (code : String)
deriving DecidableEq, Repr

/-- The per-line loop of `create_journal_entry`: look each account up by code
in the session, build its `TransactionLine`, and update the account balance.
Returns the updated session accounts and the new lines, or the first
account-not-found error. -/
def processLines (je_id : Nat) :
    List LineInput → List Account → Except LedgerError (List Account × List TransactionLine)
  | [], accounts => .ok (accounts, [])
  | t :: rest, accounts =>
    match lookupAccount accounts t.account_code with
    | none => .error (.accountNotFound t.account_code)
    | some account =>
      let line : TransactionLine :=
        ⟨je_id, account.id, t.debit, t.credit, t.description⟩
      match processLines je_id rest (applyLineToAccounts accounts account.id line) with
      | .error e => .error e
      | .ok (accs, ls) => .ok (accs, line :: ls)

/-- `LedgerEngine.create_journal_entry`.  On any raised error the session is
rolled back, so the original `DB` is returned unchanged; on success the entry,
its lines and the balance updates are committed together. -/
def create_journal_entry (db : DB) (entry_date : CalDate) (description : String)
    (transactions : List LineInput) (reference : Option String) :
    Except LedgerError JournalEntry × DB :=
  let total_debits := (transactions.map (·.debit)).sum
  let total_credits := (transactions.map (·.credit)).sum
  if total_debits ≠ total_credits then
    (.error (.unbalanced total_debits total_credits), db)
  else
    let entry_number := generate_entry_number db entry_date
    let je : JournalEntry :=
      ⟨db.next_entry_id, entry_date, entry_number, description, reference⟩
    match processLines je.id transactions db.accounts with
    | .error e => (.error e, db)
    | .ok (accounts', newLines) =>
      (.ok je,
        { db with
          accounts := accounts'
          journal := db.journal ++ [je]
          lines := db.lines ++ newLines
          next_entry_id := db.next_entry_id + 1 })

/-- `LedgerEngine.get_account_balance`: a missing account yields `Decimal(0)`;
for an existing account the `as_of_date` branch is a `pass` statement, so the
cached balance is returned regardless of the argument. -/
def get_account_balance (db : DB) (account_code : String)
    (as_of_date : Option CalDate) : ℚ :=
  match lookupAccount db.accounts account_code with
  | none => 0
  | some account =>
    match as_of_date with
    | some _ => account.balance
    | none => account.balance

/-- The per-line contribution of `AccountMonitor._calculate_balance_from_transactions`:
`debit - credit` for `Asset`/`Expense` and `credit - debit` for every other
`account_type` string (the `else` branch catches everything else). -/
def monitor_contribution (account_type : String) (debit credit : ℚ) : ℚ :=
  if account_type = "Asset" ∨ account_type = "Expense" then
    debit - credit
  else
    credit - debit

/-- `AccountMonitor._calculate_balance_from_transactions`: fold the sign
convention over every transaction line of the account. -/
def calculate_balance_from_transactions (db : DB) (account_id : Nat) : ℚ :=
  match db.accounts.find? (fun a => decide (a.id = account_id)) with
  | none => 0
  | some account =>
    (db.lines.filter (fun l => decide (l.account_id = account_id))).foldl
      (fun balance l =>
        balance + monitor_contribution account.account_type l.debit_amount l.credit_amount)
      0

/-- Result dict of `AccountMonitor.check_account_balance` for an existing
account (the source additionally converts the amounts to `float` for display;
the exact values are kept here). -/
structure BalanceCheckResult where
  account_code : String
  account_name : String
  stored_balance : ℚ
  calculated_balance : ℚ
  difference : ℚ
  status : String
deriving DecidableEq, Repr

/-- `AccountMonitor.check_account_balance`.  A missing account returns the
error dict (modelled as `none`) without persisting anything; otherwise the
result is computed and one `AccountCheck` is saved via `_save_check_result`. -/
def check_account_balance (db : DB) (account_code : String) :
    Option BalanceCheckResult × DB :=
  match lookupAccount db.accounts account_code with
  | none => (none, db)
  | some account =>
    let calculated_balance := calculate_balance_from_transactions db account.id
    let balance_match := |account.balance - calculated_balance| < (1 : ℚ) / 100
    let result : BalanceCheckResult :=
      { account_code := account_code
        account_name := account.account_name
        stored_balance := account.balance
        calculated_balance := calculated_balance
        difference := account.balance - calculated_balance
        status := if balance_match then "pass" else "fail" }
    (some result,
      { db with checks := db.checks ++ [⟨account.id, "balance", result.status⟩] })

/-- One joined row of the monitor's window query in `detect_anomalies`:
a `TransactionLine` of the account together with its `JournalEntry`'s
`entry_date` and `entry_number`.  The trailing-window query
(`entry_date >= date.today() - timedelta(days=days)`) depends on the wall
clock, so the audited functions are parameterised by the rows it returns. -/
structure WindowLine where
  debit_amount : ℚ
  credit_amount : ℚ
  entry_date : CalDate
  entry_number : String
deriving DecidableEq, Repr

/-- One element of the `anomalies` list built by `detect_anomalies`:
`typ` is the dict's `'type'` key (`"unusual_amount"` or `"duplicate"`),
`original_entry` is the `'original_entry'` key present only on duplicates. -/
structure Anomaly where
  typ : String
  entry_number : String
  original_entry : Option String
deriving DecidableEq, Repr

/-- The grouping key of the duplicate check:
`(float(debit_amount), float(credit_amount), entry_date)`. -/
def dupKey (w : WindowLine) : ℚ × ℚ × CalDate :=
  (w.debit_amount, w.credit_amount, w.entry_date)

/-- The duplicate-detection loop of `detect_anomalies`: walk the window rows
carrying the `seen` dict (key ↦ entry number of its first occurrence); a row
whose key is already in `seen` is flagged, otherwise its key is recorded. -/
def dupScan : List WindowLine → List ((ℚ × ℚ × CalDate) × String) → List Anomaly
  | [], _ => []
  | w :: rest, seen =>
    match seen.find? (fun p => decide (p.1 = dupKey w)) with
    | some p => ⟨"duplicate", w.entry_number, some p.2⟩ :: dupScan rest seen
    | none => dupScan rest ((dupKey w, w.entry_number) :: seen)

/-- Result dict of `detect_anomalies`.  The source's floating-point
`std_amount` is represented exactly by its square `var_amount` (the sample
variance): `std_amount > 0 ↔ var_amount > 0` and
`|z| > 2 ↔ (amount - mean)² > 4·var_amount`.  Keys absent from the
early-return dict (`total_transactions`, `mean_amount`, `std_amount`) and the
key absent from the normal dict (`message`) are `Option`s. -/
structure AnomalyDetectionResult where
  account_code : String
  status : String
  anomalies : List Anomaly
  message : Option String
  total_transactions : Option Nat
  mean_amount : Option ℚ
  var_amount : Option ℚ
deriving DecidableEq, Repr

/-- `AccountMonitor.detect_anomalies`, parameterised by the rows the
trailing-window query returned.  A missing account returns the error dict
(`none`) without saving; an empty window returns the 'No recent transactions'
dict without saving; otherwise the statistical and duplicate anomalies are
collected and one `AccountCheck` is saved via `_save_check_result`. -/
def detect_anomalies (db : DB) (account_code : String) (window : List WindowLine) :
    Option AnomalyDetectionResult × DB :=
  match lookupAccount db.accounts account_code with
  | none => (none, db)
  | some account =>
    let amounts := window.map (fun w => |w.debit_amount - w.credit_amount|)
    if amounts.isEmpty then
      (some { account_code := account_code
              status := "pass"
              anomalies := []
              message := some "No recent transactions"
              total_transactions := none
              mean_amount := none
              var_amount := none }, db)
    else
      let n := amounts.length
      let mean_amount := amounts.sum / (n : ℚ)
      let var_amount :=
        if 1 < n then (amounts.map (fun a => (a - mean_amount) ^ 2)).sum / ((n : ℚ) - 1)
        else 0
      let unusual := window.filterMap (fun w =>
        let amount := |w.debit_amount - w.credit_amount|
        if 0 < var_amount ∧ 4 * var_amount < (amount - mean_amount) ^ 2 then
          some ⟨"unusual_amount", w.entry_number, none⟩
        else none)
      let anomalies := unusual ++ dupScan window []
      let status := if anomalies.isEmpty then "pass" else "warning"
      let result : AnomalyDetectionResult :=
        { account_code := account_code
          status := status
          anomalies := anomalies
          message := none
          total_transactions := some window.length
          mean_amount := some mean_amount
          var_amount := some var_amount }
      (some result,
        { db with checks := db.checks ++ [⟨account.id, "anomaly", status⟩] })

/-- One element of the `unbalanced_entries` list of
`check_double_entry_balance`. -/
structure UnbalancedEntry where
  entry_number : String
  debits : ℚ
  credits : ℚ
  difference : ℚ
deriving DecidableEq, Repr

/-- Result dict of `check_double_entry_balance`. -/
structure DoubleEntryResult where
  status : String
  total_entries : Nat
  unbalanced_entries : List UnbalancedEntry
deriving DecidableEq, Repr

/-- `AccountMonitor.check_double_entry_balance`: recompute each journal
entry's debit and credit totals from its lines and collect the entries where
they differ.  The function computes the result dict and returns — it contains
no call to `_save_check_result`, so the `DB` is returned unchanged. -/
def check_double_entry_balance (db : DB) : DoubleEntryResult × DB :=
  let unbalanced := db.journal.filterMap (fun je =>
    let ls := db.lines.filter (fun l => decide (l.journal_entry_id = je.id))
    let total_debits : ℚ := (ls.map (·.debit_amount)).sum
    let total_credits : ℚ := (ls.map (·.credit_amount)).sum
    if total_debits ≠ total_credits then
      some ⟨je.entry_number, total_debits, total_credits, total_debits - total_credits⟩
    else none)
  ({ status := if unbalanced.isEmpty then "pass" else "fail"
     total_entries := db.journal.length
     unbalanced_entries := unbalanced }, db)

/-- One call's arguments to `create_journal_entry`, for sequential runs. -/
structure PostRequest where
  entry_date : CalDate
  description : String
  transactions : List LineInput
  reference : Option String
deriving Repr

/-- Execute a sequence of postings sequentially; a failed posting leaves the
database unchanged (rollback) and the run continues. -/
def runPostings (db : DB) : List PostRequest → DB
  | [] => db
  | r :: rest =>
    runPostings (create_journal_entry db r.entry_date r.description r.transactions r.reference).2 rest

/-- A fresh database: a chart of accounts, no journal entries, no lines,
no checks. -/
def initialDB (accounts : List Account) : DB :=
  ⟨accounts, [], [], [], 0⟩

/-- Transcription of the specification's duplicate rule, used to compare the
code's single-pass scan against the spec's wording: walking the window in
order, a row whose (debit amount, credit amount, entry date) tuple already
occurs among the previously walked rows `prev` is flagged as a duplicate
carrying the entry number of the first occurrence of that tuple, and a first
occurrence is never flagged. -/
def duplicateFlagsSpec : List WindowLine → List WindowLine → List Anomaly
  | [], _ => []
  | w :: rest, prev =>
    (match prev.find? (fun p => decide (dupKey p = dupKey w)) with
     | some p0 => [⟨"duplicate", w.entry_number, some p0.entry_number⟩]
     | none => []) ++ duplicateFlagsSpec rest (prev ++ [w])

/-- The journal entries recorded for a given date, in posting order. -/
def entriesOn (journal : List JournalEntry) (d : CalDate) : List JournalEntry :=
  journal.filter (fun e => decide (e.entry_date = d))

/-- Invariant of sequential posting: for every date, the entry numbers on that
date are exactly `JE-<date>-001, JE-<date>-002, ...` in posting order. -/
def NumberingOK (journal : List JournalEntry) : Prop :=
  ∀ d, (entriesOn journal d).map JournalEntry.entry_number =
    (List.range' 1 (entriesOn journal d).length).map (entryNumberString d)

/-- Fixture: the `Cash` asset account of the default chart of accounts. -/
def acctCash : Account :=
  ⟨1, "1000", "Cash", "Asset", 0⟩

/-- Fixture: the `Operating Expenses` expense account. -/
def acctOpex : Account :=
  ⟨2, "5100", "Operating Expenses", "Expense", 0⟩

/-- Fixture: a fresh database with the two fixture accounts. -/
def dbFix : DB :=
  initialDB [acctCash, acctOpex]

/-- Fixture: a window row of 100.00 debit on 2024-03-01. -/
def wLine : WindowLine :=
  ⟨100, 0, ⟨2024, 3, 1⟩, "JE-20240301-001"⟩

/-- Fixture: a second window row identical to `wLine` except for its entry
number. -/
def wLine2 : WindowLine :=
  ⟨100, 0, ⟨2024, 3, 1⟩, "JE-20240301-002"⟩

/-- Fixture: a database holding one hand-written journal entry with two
balanced lines (500 debit to `Cash`, 500 credit to `Operating Expenses`). -/
def dbManual : DB :=
  { accounts := [acctCash, acctOpex]
    journal := [⟨0, ⟨2024, 1, 5⟩, "JE-20240105-001", "sale", none⟩]
    lines := [⟨0, 1, 500, 0, ""⟩, ⟨0, 2, 0, 500, ""⟩]
    checks := []
    next_entry_id := 1 }

/-- Claim C2: for every committed transaction line, the balance delta applied
to its account by the ledger engine's `_update_account_balance` is
`debit_amount - credit_amount` when the account's class is `Asset` or
`Expense`, and `credit_amount - debit_amount` when it is `Liability`,
`Equity`, or `Revenue`. -/
theorem committed_line_balance_delta (i : Nat) (code name : String) (b : ℚ)
    (line : TransactionLine) :
    (update_account_balance ⟨i, code, name, "Asset", b⟩ line).balance =
      b + (line.debit_amount - line.credit_amount) ∧
    (update_account_balance ⟨i, code, name, "Expense", b⟩ line).balance =
      b + (line.debit_amount - line.credit_amount) ∧
    (update_account_balance ⟨i, code, name, "Liability", b⟩ line).balance =
      b + (line.credit_amount - line.debit_amount) ∧
    (update_account_balance ⟨i, code, name, "Equity", b⟩ line).balance =
      b + (line.credit_amount - line.debit_amount) ∧
    (update_account_balance ⟨i, code, name, "Revenue", b⟩ line).balance =
      b + (line.credit_amount - line.debit_amount) := by
  refine ⟨?_, ?_, ?_, ?_, ?_⟩ <;> simp [update_account_balance, balance_change]

/-- Claim C3, counterexample: for an account whose `account_type` is not one
of the five declared classes, the engine's posting-time delta (which falls
through to `0`) differs from the monitor's audit-time contribution (whose
`else` branch applies `credit - debit`): on a 100 debit the engine applies 0
and the monitor applies -100. -/
theorem sign_convention_paths_diverge :
    balance_change "Suspense" 100 0 ≠ monitor_contribution "Suspense" 100 0 := by
  simp [balance_change, monitor_contribution]

/-- Claim C3 (amended): for every account whose `account_type` is one of the
five declared classes, the per-line delta applied at posting time by
`_update_account_balance` equals the per-line contribution used at audit time
by `_calculate_balance_from_transactions`; for other `account_type` strings
the two code paths differ. -/
theorem sign_convention_paths_agree (debit credit : ℚ) :
    balance_change "Asset" debit credit = monitor_contribution "Asset" debit credit ∧
    balance_change "Expense" debit credit = monitor_contribution "Expense" debit credit ∧
    balance_change "Liability" debit credit = monitor_contribution "Liability" debit credit ∧
    balance_change "Equity" debit credit = monitor_contribution "Equity" debit credit ∧
    balance_change "Revenue" debit credit = monitor_contribution "Revenue" debit credit := by
  refine ⟨?_, ?_, ?_, ?_, ?_⟩ <;> simp [balance_change, monitor_contribution]

/-- Claim C4, failing input: `create_journal_entry` performs no minimum
line-count check.  An empty transaction list balances trivially
(`0 == 0`), is accepted, and commits a `JournalEntry` with no lines; a single
line with `debit = credit` is likewise accepted and commits.  The claimed
`MalformedEntryError` rejection does not exist in the code. -/
theorem minimum_line_count_not_enforced :
    (create_journal_entry dbFix ⟨2024, 1, 5⟩ "empty entry" [] none).1.toOption =
      some ⟨0, ⟨2024, 1, 5⟩, "JE-20240105-001", "empty entry", none⟩ ∧
    (create_journal_entry dbFix ⟨2024, 1, 5⟩ "empty entry" [] none).2.journal.length = 1 ∧
    (create_journal_entry dbFix ⟨2024, 1, 5⟩ "single line"
        [⟨"1000", 100, 100, ""⟩] none).2.journal.length = 1 := by
  refine ⟨by decide, by decide, ?_⟩
  norm_num [create_journal_entry, dbFix, initialDB, acctCash, acctOpex,
    lookupAccount, processLines, applyLineToAccounts, List.find?]

/-- Claim C10: `get_account_balance` returns `Decimal(0)` for a code absent
from the chart of accounts (indistinguishable from an existing zero-balance
account), and for an existing account it returns the cached stored balance
for every value of the ignored `as_of_date` argument. -/
theorem get_account_balance_fallback_and_date_ignored (db : DB) (code : String) :
    (lookupAccount db.accounts code = none →
      ∀ d : Option CalDate, get_account_balance db code d = 0) ∧
    (∀ account : Account, lookupAccount db.accounts code = some account →
      ∀ d d' : Option CalDate,
        get_account_balance db code d = account.balance ∧
        get_account_balance db code d = get_account_balance db code d') := by
  constructor
  · intro h d
    cases d <;> simp [get_account_balance, h]
  · intro account h d d'
    cases d <;> cases d' <;> simp [get_account_balance, h]

/-- Witness for `get_account_balance_fallback_and_date_ignored`: in the
fixture database, the unknown code `9999` yields 0 at any date, and the
`Cash` account's cached balance is returned whether or not a date is given. -/
theorem get_account_balance_fallback_and_date_ignored_witness :
    get_account_balance dbFix "9999" (some ⟨2024, 1, 5⟩) = 0 ∧
    get_account_balance dbFix "1000" (some ⟨2024, 1, 5⟩) = acctCash.balance ∧
    get_account_balance dbFix "1000" none = get_account_balance dbFix "1000" (some ⟨2024, 1, 5⟩) := by
  refine ⟨?_, ?_, ?_⟩
  · exact (get_account_balance_fallback_and_date_ignored dbFix "9999").1 rfl _
  · exact (((get_account_balance_fallback_and_date_ignored dbFix "1000").2
      acctCash rfl (some ⟨2024, 1, 5⟩) none)).1
  · exact (((get_account_balance_fallback_and_date_ignored dbFix "1000").2
      acctCash rfl none (some ⟨2024, 1, 5⟩))).2

/-- Claim C6: for every existing account, `check_account_balance` reports
status `pass` iff the absolute difference between the stored balance and the
balance derived from transaction history is strictly below 0.01, reports
`fail` otherwise, and records the signed difference (stored minus derived)
together with both balances in its result. -/
theorem balance_reconciliation_pass_iff (db : DB) (code : String) (account : Account)
    (h : lookupAccount db.accounts code = some account) :
    ∃ r, (check_account_balance db code).1 = some r ∧
      (r.status = "pass" ↔
        |account.balance - calculate_balance_from_transactions db account.id| < 1 / 100) ∧
      (r.status = "fail" ↔
        ¬ |account.balance - calculate_balance_from_transactions db account.id| < 1 / 100) ∧
      r.difference = account.balance - calculate_balance_from_transactions db account.id ∧
      r.stored_balance = account.balance ∧
      r.calculated_balance = calculate_balance_from_transactions db account.id := by
  refine ⟨{ account_code := code
            account_name := account.account_name
            stored_balance := account.balance
            calculated_balance := calculate_balance_from_transactions db account.id
            difference := account.balance - calculate_balance_from_transactions db account.id
            status := if |account.balance - calculate_balance_from_transactions db account.id|
                < 1 / 100 then "pass" else "fail" }, ?_, ?_, ?_, rfl, rfl, rfl⟩
  · simp [check_account_balance, h]
  · by_cases hm : |account.balance - calculate_balance_from_transactions db account.id| < 1 / 100 <;>
      simp [hm]
  · by_cases hm : |account.balance - calculate_balance_from_transactions db account.id| < 1 / 100 <;>
      simp [hm]

/-- Witness for `balance_reconciliation_pass_iff` at the fixture database's
`Cash` account. -/
theorem balance_reconciliation_pass_iff_witness :
    ∃ r, (check_account_balance dbFix "1000").1 = some r ∧
      (r.status = "pass" ↔
        |acctCash.balance - calculate_balance_from_transactions dbFix acctCash.id| < 1 / 100) ∧
      (r.status = "fail" ↔
        ¬ |acctCash.balance - calculate_balance_from_transactions dbFix acctCash.id| < 1 / 100) ∧
      r.difference = acctCash.balance - calculate_balance_from_transactions dbFix acctCash.id ∧
      r.stored_balance = acctCash.balance ∧
      r.calculated_balance = calculate_balance_from_transactions dbFix acctCash.id :=
  balance_reconciliation_pass_iff dbFix "1000" acctCash rfl

/-- Claim C7, counterexample: on the fixture database holding one committed
journal entry, the global double-entry verification
(`check_double_entry_balance`) persists zero `AccountCheck` rows, not exactly
one: the function contains no call to `_save_check_result`. -/
theorem double_entry_audit_persists_no_check :
    (check_double_entry_balance dbManual).2.checks.length ≠ dbManual.checks.length + 1 := by
  decide

/-- Claim C7 (amended): balance reconciliation on an existing account persists
exactly one `AccountCheck`; anomaly detection persists exactly one when the
trailing window is non-empty and none when the window is empty (the early
`No recent transactions` return skips `_save_check_result`); global
double-entry verification never persists an `AccountCheck`. -/
theorem audit_check_persistence (db : DB) (code : String) (account : Account)
    (h : lookupAccount db.accounts code = some account) :
    ((check_account_balance db code).2.checks.length = db.checks.length + 1) ∧
    (∀ window : List WindowLine, window ≠ [] →
      (detect_anomalies db code window).2.checks.length = db.checks.length + 1) ∧
    ((detect_anomalies db code []).2.checks = db.checks) ∧
    (∀ db' : DB, (check_double_entry_balance db').2.checks = db'.checks) := by
  refine ⟨?_, ?_, ?_, fun db' => rfl⟩
  · simp [check_account_balance, h]
  · intro window hw
    obtain ⟨w, ws, rfl⟩ := List.exists_cons_of_ne_nil hw
    simp [detect_anomalies, h]
  · simp [detect_anomalies, h]

/-- Witness for `audit_check_persistence` at the fixture database's `Cash`
account, with the one-row window `[wLine]`. -/
theorem audit_check_persistence_witness :
    (check_account_balance dbFix "1000").2.checks.length = dbFix.checks.length + 1 ∧
    (detect_anomalies dbFix "1000" [wLine]).2.checks.length = dbFix.checks.length + 1 ∧
    (detect_anomalies dbFix "1000" []).2.checks = dbFix.checks ∧
    (check_double_entry_balance dbFix).2.checks = dbFix.checks := by
  have h := audit_check_persistence dbFix "1000" acctCash rfl
  exact ⟨h.1, h.2.1 [wLine] (by simp), h.2.2.1, h.2.2.2 dbFix⟩

/-- Claim C8, counterexample: on a trailing window holding exactly one
transaction line, `detect_anomalies` returns a result whose `message` field
is absent (`none`): no "insufficient data" (nor any other) note is reported,
contrary to the claim; the status is nevertheless `pass`. -/
theorem one_point_window_lacks_note :
    ((detect_anomalies dbFix "1000" [wLine]).1.map AnomalyDetectionResult.message = some none) ∧
    ((detect_anomalies dbFix "1000" [wLine]).1.map AnomalyDetectionResult.status = some "pass") := by
  have h : lookupAccount dbFix.accounts "1000" = some acctCash := rfl
  constructor <;> simp [detect_anomalies, h, dupScan, wLine]

/-- Claim C8 (amended): for an existing account whose trailing window has
fewer than 2 sample points, `detect_anomalies` reports status `pass` and
computes no standard deviation (the `std_amount` is set to 0 for one point,
and the statistics keys are absent for zero points); the explicit note
(`'No recent transactions'`) is attached only in the zero-point case, and no
note at all is attached in the one-point case. -/
theorem insufficient_data_reporting (db : DB) (code : String) (account : Account)
    (h : lookupAccount db.accounts code = some account) :
    ((detect_anomalies db code []).1 =
      some { account_code := code, status := "pass", anomalies := [],
             message := some "No recent transactions", total_transactions := none,
             mean_amount := none, var_amount := none }) ∧
    (∀ w : WindowLine, ∃ r, (detect_anomalies db code [w]).1 = some r ∧
      r.status = "pass" ∧ r.message = none ∧ r.var_amount = some 0 ∧ r.anomalies = []) := by
  constructor
  · simp [detect_anomalies, h]
  · intro w
    have hval : detect_anomalies db code [w] =
        (some { account_code := code, status := "pass", anomalies := [],
                message := none, total_transactions := some 1,
                mean_amount := some |w.debit_amount - w.credit_amount|,
                var_amount := some 0 },
         { db with checks := db.checks ++ [⟨account.id, "anomaly", "pass"⟩] }) := by
      simp [detect_anomalies, h, dupScan]
    exact ⟨_, by rw [hval], rfl, rfl, rfl, rfl⟩

/-- Witness for `insufficient_data_reporting` at the fixture database's
`Cash` account with the empty window and the one-row window `[wLine]`. -/
theorem insufficient_data_reporting_witness :
    ((detect_anomalies dbFix "1000" []).1 =
      some { account_code := "1000", status := "pass", anomalies := [],
             message := some "No recent transactions", total_transactions := none,
             mean_amount := none, var_amount := none }) ∧
    (∃ r, (detect_anomalies dbFix "1000" [wLine]).1 = some r ∧
      r.status = "pass" ∧ r.message = none ∧ r.var_amount = some 0 ∧ r.anomalies = []) := by
  have h := insufficient_data_reporting dbFix "1000" acctCash rfl
  exact ⟨h.1, h.2 wLine⟩

/-- Balance mutation does not change an account's code. -/
theorem account_code_applyLine (a : Account) (aid : Nat) (line : TransactionLine) :
    (if a.id = aid then update_account_balance a line else a).account_code = a.account_code := by
  split <;> rfl

/-- Whether a code resolves in the session is unaffected by balance updates. -/
theorem lookupAccount_applyLine_isSome (accounts : List Account) (aid : Nat)
    (line : TransactionLine) (code : String) :
    (lookupAccount (applyLineToAccounts accounts aid line) code).isSome =
      (lookupAccount accounts code).isSome := by
  induction accounts with
  | nil => rfl
  | cons a rest ih =>
    simp only [applyLineToAccounts, List.map_cons, lookupAccount, List.find?]
    rw [account_code_applyLine]
    cases hd : decide (a.account_code = code)
    · simpa [applyLineToAccounts, lookupAccount] using ih
    · simp

/-- The per-line loop succeeds whenever every referenced code resolves. -/
theorem processLines_ok_of_known (je_id : Nat) :
    ∀ (ts : List LineInput) (accounts : List Account),
      (∀ t ∈ ts, (lookupAccount accounts t.account_code).isSome) →
      ∃ r, processLines je_id ts accounts = .ok r := by
  intro ts
  induction ts with
  | nil => exact fun accounts _ => ⟨(accounts, []), rfl⟩
  | cons t rest ih =>
    intro accounts hall
    have ht : (lookupAccount accounts t.account_code).isSome :=
      hall t (List.mem_cons_self t rest)
    obtain ⟨account, hacc⟩ := Option.isSome_iff_exists.mp ht
    have hrest : ∀ t' ∈ rest,
        (lookupAccount (applyLineToAccounts accounts account.id
          ⟨je_id, account.id, t.debit, t.credit, t.description⟩) t'.account_code).isSome := by
      intro t' ht'
      rw [lookupAccount_applyLine_isSome]
      exact hall t' (List.mem_cons_of_mem t ht')
    obtain ⟨⟨accs, ls⟩, hr⟩ := ih _ hrest
    refine ⟨(accs, ⟨je_id, account.id, t.debit, t.credit, t.description⟩ :: ls), ?_⟩
    simp [processLines, hacc, hr]

/-- Claim C1: a posting whose debit total differs from its credit total is
rejected with the unbalanced error carrying both totals and the database is
returned unchanged (no `JournalEntry`, no `TransactionLine`, no balance
change); a posting whose totals are exactly equal and whose codes all resolve
raises no error. -/
theorem create_journal_entry_balance_validation (db : DB) (ed : CalDate)
    (desc : String) (ts : List LineInput) (ref : Option String) :
    ((ts.map (·.debit)).sum ≠ (ts.map (·.credit)).sum →
      create_journal_entry db ed desc ts ref =
        (.error (.unbalanced (ts.map (·.debit)).sum (ts.map (·.credit)).sum), db)) ∧
    ((ts.map (·.debit)).sum = (ts.map (·.credit)).sum →
      (∀ t ∈ ts, (lookupAccount db.accounts t.account_code).isSome) →
      ∃ je, (create_journal_entry db ed desc ts ref).1 = .ok je) := by
  constructor
  · intro hne
    simp [create_journal_entry, hne]
  · intro heq hknown
    obtain ⟨⟨accs, ls⟩, hr⟩ := processLines_ok_of_known db.next_entry_id ts db.accounts hknown
    refine ⟨⟨db.next_entry_id, ed, generate_entry_number db ed, desc, ref⟩, ?_⟩
    simp [create_journal_entry, heq, hr]

/-- Witness for `create_journal_entry_balance_validation`: in the fixture
database, a lone 100 debit is rejected as unbalanced with totals (100, 0) and
the database is unchanged, while a balanced 500/500 posting succeeds. -/
theorem create_journal_entry_balance_validation_witness :
    create_journal_entry dbFix ⟨2024, 1, 5⟩ "unbalanced" [⟨"1000", 100, 0, ""⟩] none =
      (.error (.unbalanced 100 0), dbFix) ∧
    ∃ je, (create_journal_entry dbFix ⟨2024, 1, 5⟩ "balanced"
        [⟨"1000", 500, 0, ""⟩, ⟨"5100", 0, 500, ""⟩] none).1 = .ok je := by
  constructor
  · have h := (create_journal_entry_balance_validation dbFix ⟨2024, 1, 5⟩ "unbalanced"
      [⟨"1000", 100, 0, ""⟩] none).1 (by norm_num)
    simpa using h
  · exact (create_journal_entry_balance_validation dbFix ⟨2024, 1, 5⟩ "balanced"
      [⟨"1000", 500, 0, ""⟩, ⟨"5100", 0, 500, ""⟩] none).2 (by norm_num) (by decide)

/-- Every anomaly produced by the duplicate scan is a duplicate flag. -/
theorem dupScan_mem_typ :
    ∀ (ts : List WindowLine) (seen : List ((ℚ × ℚ × CalDate) × String)) (a : Anomaly),
      a ∈ dupScan ts seen → a.typ = "duplicate" := by
  intro ts
  induction ts with
  | nil =>
    intro seen a h
    simp [dupScan] at h
  | cons w rest ih =>
    intro seen a h
    cases hf : seen.find? (fun p => decide (p.1 = dupKey w)) with
    | some p =>
      simp only [dupScan, hf] at h
      rcases List.mem_cons.mp h with h | h
      · subst h; rfl
      · exact ih _ _ h
    | none =>
      simp only [dupScan, hf] at h
      exact ih _ _ h

/-- Invariant transfer when the current row's key was already seen: extending
the walked prefix by that row does not change any first occurrence. -/
theorem dup_invariant_extend_found {prev : List WindowLine}
    {seen : List ((ℚ × ℚ × CalDate) × String)} {w : WindowLine}
    (hinv : ∀ k, (seen.find? (fun p => decide (p.1 = k))).map Prod.snd =
      (prev.find? (fun q => decide (dupKey q = k))).map WindowLine.entry_number)
    (hfound : (prev.find? (fun q => decide (dupKey q = dupKey w))).isSome) :
    ∀ k, (seen.find? (fun p => decide (p.1 = k))).map Prod.snd =
      ((prev ++ [w]).find? (fun q => decide (dupKey q = k))).map WindowLine.entry_number := by
  intro k
  rw [List.find?_append]
  cases hpk : prev.find? (fun q => decide (dupKey q = k)) with
  | some q =>
    rw [hinv k, hpk]
    rfl
  | none =>
    have hkk : ¬dupKey w = k := by
      intro he
      rw [he, hpk] at hfound
      simp at hfound
    have h1 : List.find? (fun q => decide (dupKey q = k)) [w] = none := by
      simp [List.find?, hkk]
    rw [h1, hinv k, hpk]
    rfl

/-- Invariant transfer when the current row's key is new: recording it in
`seen` matches appending the row to the walked prefix. -/
theorem dup_invariant_extend_new {prev : List WindowLine}
    {seen : List ((ℚ × ℚ × CalDate) × String)} {w : WindowLine}
    (hinv : ∀ k, (seen.find? (fun p => decide (p.1 = k))).map Prod.snd =
      (prev.find? (fun q => decide (dupKey q = k))).map WindowLine.entry_number)
    (hnone : prev.find? (fun q => decide (dupKey q = dupKey w)) = none) :
    ∀ k, (((dupKey w, w.entry_number) :: seen).find? (fun p => decide (p.1 = k))).map Prod.snd =
      ((prev ++ [w]).find? (fun q => decide (dupKey q = k))).map WindowLine.entry_number := by
  intro k
  by_cases he : dupKey w = k
  · subst he
    rw [List.find?_append, hnone]
    simp [List.find?]
  · have hl : ((dupKey w, w.entry_number) :: seen).find? (fun p => decide (p.1 = k)) =
        seen.find? (fun p => decide (p.1 = k)) := by
      simp [List.find?, he]
    have h1 : List.find? (fun q => decide (dupKey q = k)) [w] = none := by
      simp [List.find?, he]
    rw [hl, List.find?_append, h1, hinv k]
    cases hpk : prev.find? (fun q => decide (dupKey q = k)) <;> rfl

/-- The code's single-pass duplicate scan computes exactly the spec's
duplicate flags, for any `seen` dict agreeing with the walked prefix. -/
theorem dupScan_eq_spec :
    ∀ (ts prev : List WindowLine) (seen : List ((ℚ × ℚ × CalDate) × String)),
      (∀ k, (seen.find? (fun p => decide (p.1 = k))).map Prod.snd =
        (prev.find? (fun q => decide (dupKey q = k))).map WindowLine.entry_number) →
      dupScan ts seen = duplicateFlagsSpec ts prev := by
  intro ts
  induction ts with
  | nil => intro prev seen _; rfl
  | cons w rest ih =>
    intro prev seen hinv
    have hk := hinv (dupKey w)
    cases hs : seen.find? (fun p => decide (p.1 = dupKey w)) with
    | some p =>
      rw [hs] at hk
      cases hp : prev.find? (fun q => decide (dupKey q = dupKey w)) with
      | none => rw [hp] at hk; simp at hk
      | some p0 =>
        rw [hp] at hk
        simp only [Option.map_some'] at hk
        simp only [dupScan, duplicateFlagsSpec, hs, hp, List.singleton_append]
        rw [hk]
        exact congrArg _ (ih _ seen (dup_invariant_extend_found hinv (by rw [hp]; rfl)))
    | none =>
      rw [hs] at hk
      cases hp : prev.find? (fun q => decide (dupKey q = dupKey w)) with
      | some p0 => rw [hp] at hk; simp at hk
      | none =>
        simp only [dupScan, duplicateFlagsSpec, hs, hp, List.nil_append]
        exact ih _ _ (dup_invariant_extend_new hinv hp)

/-- The duplicate scan started from the empty dict equals the spec's flags
started from the empty prefix. -/
theorem dupScan_eq_duplicateFlagsSpec (ts : List WindowLine) :
    dupScan ts [] = duplicateFlagsSpec ts [] :=
  dupScan_eq_spec ts [] [] (fun _ => rfl)

/-- An anomaly produced by the statistical flagging branch carries the type
tag `unusual_amount`, whatever the z-score condition was. -/
theorem unusualFlag_typ {c : Prop} [Decidable c] {num : String} {a : Anomaly}
    (hfx : (if c then some (⟨"unusual_amount", num, none⟩ : Anomaly) else none) = some a) :
    a.typ = "unusual_amount" := by
  split at hfx
  · injection hfx with hfa
    rw [← hfa]
  · exact Option.noConfusion hfx

/-- The shape of a non-empty-window `detect_anomalies` result: its anomalies
are the statistical flags followed by the duplicate-scan flags, and its
status is `warning` exactly when that list is non-empty. -/
theorem detect_anomalies_result_shape (db : DB) (code : String) (account : Account)
    (h : lookupAccount db.accounts code = some account) (w : WindowLine)
    (ws : List WindowLine) :
    ∃ r unusual, (detect_anomalies db code (w :: ws)).1 = some r ∧
      r.anomalies = unusual ++ dupScan (w :: ws) [] ∧
      (∀ a ∈ unusual, a.typ = "unusual_amount") ∧
      r.status = (if r.anomalies.isEmpty then "pass" else "warning") := by
  unfold detect_anomalies
  rw [h]
  dsimp only
  refine ⟨_, _, rfl, rfl, ?_, rfl⟩
  intro a ha
  obtain ⟨x, hx, hfx⟩ := List.mem_filterMap.mp ha
  exact unusualFlag_typ hfx

/-- Claim C9: on any non-empty anomaly-detection window of an existing
account, the duplicate anomalies produced by `detect_anomalies` are exactly
the spec's grouping by (debit amount, credit amount, entry date): each second
and subsequent occurrence of an identical tuple is flagged carrying the entry
number of the first occurrence, first occurrences are never flagged
(`duplicateFlagsSpec`), and the overall status is `warning` iff any anomaly
(statistical or duplicate) was found, and `pass` iff none was. -/
theorem duplicate_anomalies_match_spec (db : DB) (code : String) (account : Account)
    (h : lookupAccount db.accounts code = some account)
    (window : List WindowLine) (hw : window ≠ []) :
    ∃ r, (detect_anomalies db code window).1 = some r ∧
      r.anomalies.filter (fun a => decide (a.typ = "duplicate")) = duplicateFlagsSpec window [] ∧
      (r.status = "warning" ↔ r.anomalies ≠ []) ∧
      (r.status = "pass" ↔ r.anomalies = []) := by
  obtain ⟨w, ws, rfl⟩ := List.exists_cons_of_ne_nil hw
  obtain ⟨r, unusual, hr, hanom, hun, hst⟩ := detect_anomalies_result_shape db code account h w ws
  refine ⟨r, hr, ?_, ?_⟩
  · rw [hanom, List.filter_append]
    have h1 : unusual.filter (fun a => decide (a.typ = "duplicate")) = [] := by
      rw [List.filter_eq_nil_iff]
      intro a ha
      simp [hun a ha]
    have h2 : (dupScan (w :: ws) []).filter (fun a => decide (a.typ = "duplicate")) =
        dupScan (w :: ws) [] := by
      rw [List.filter_eq_self]
      intro a ha
      simp [dupScan_mem_typ _ _ a ha]
    rw [h1, h2, List.nil_append]
    exact dupScan_eq_duplicateFlagsSpec (w :: ws)
  · rw [hst]
    by_cases he : r.anomalies.isEmpty
    · rw [List.isEmpty_iff] at he
      constructor <;> simp [List.isEmpty_iff, he]
    · rw [List.isEmpty_iff] at he
      constructor <;> simp [List.isEmpty_iff, he]

/-- Witness for `duplicate_anomalies_match_spec` on the fixture database's
`Cash` account with a window of two identical (100 debit, 0 credit,
2024-03-01) rows. -/
theorem duplicate_anomalies_match_spec_witness :
    ∃ r, (detect_anomalies dbFix "1000" [wLine, wLine2]).1 = some r ∧
      r.anomalies.filter (fun a => decide (a.typ = "duplicate")) =
        duplicateFlagsSpec [wLine, wLine2] [] ∧
      (r.status = "warning" ↔ r.anomalies ≠ []) ∧
      (r.status = "pass" ↔ r.anomalies = []) :=
  duplicate_anomalies_match_spec dbFix "1000" acctCash rfl [wLine, wLine2] (by simp)

/-- Decimal digit characters decode back to their value. -/
theorem digitChar_toNat : ∀ d : Nat, d < 10 → (Nat.digitChar d).toNat = 48 + d := by
  decide

/-- Folding the decoder over the little-endian digits recovers the number. -/
theorem toDigitsAux_foldr : ∀ (fuel n : Nat), n ≤ fuel →
    (toDigitsAux fuel n).foldr (fun c acc => acc * 10 + (c.toNat - 48)) 0 = n := by
  intro fuel
  induction fuel with
  | zero =>
    intro n hn
    have h0 : n = 0 := Nat.le_zero.mp hn
    subst h0
    rfl
  | succ fuel ih =>
    intro n hn
    cases n with
    | zero => rfl
    | succ m =>
      have hdiv : (m + 1) / 10 ≤ fuel := by
        have h1 : (m + 1) / 10 < m + 1 := Nat.div_lt_self (Nat.succ_pos m) (by decide)
        omega
      simp only [toDigitsAux, List.foldr_cons]
      rw [ih _ hdiv, digitChar_toNat _ (Nat.mod_lt _ (by decide))]
      omega

/-- Leading zero characters do not change the decoded value. -/
theorem decodeDigits_append_zeros (k : Nat) (l : List Char) :
    decodeDigits (List.replicate k '0' ++ l) = decodeDigits l := by
  induction k with
  | zero => rfl
  | succ k ih =>
    rw [List.replicate_succ, List.cons_append]
    show decodeDigits (List.replicate k '0' ++ l) = decodeDigits l
    exact ih

/-- Decoding Python's `str(n)` recovers `n`. -/
theorem decodeDigits_natStr (n : Nat) : decodeDigits (natStr n).data = n := by
  by_cases h0 : n = 0
  · subst h0
    rfl
  · rw [natStr, if_neg h0]
    show decodeDigits (toDigitsAux n n).reverse = n
    rw [decodeDigits, List.foldl_reverse]
    exact toDigitsAux_foldr n n (Nat.le_refl n)

/-- Decoding the zero-padded rendering recovers the number, whatever the
padding width. -/
theorem decodeDigits_padNum (w n : Nat) : decodeDigits (padNum w n).data = n := by
  simp only [padNum]
  rw [String.data_append]
  show decodeDigits (List.replicate (w - (natStr n).length) '0' ++ (natStr n).data) = n
  rw [decodeDigits_append_zeros]
  exact decodeDigits_natStr n

/-- Zero-padded rendering is injective: distinct sequence numbers always give
distinct strings. -/
theorem padNum_inj (w : Nat) {a b : Nat} (h : (padNum w a).data = (padNum w b).data) :
    a = b := by
  have ha := decodeDigits_padNum w a
  rw [h] at ha
  exact ha.symm.trans (decodeDigits_padNum w b)

/-- For a fixed posting date, the generated entry-number strings are injective
in the sequence number. -/
theorem entryNumberString_inj (d : CalDate) {a b : Nat}
    (h : entryNumberString d a = entryNumberString d b) : a = b := by
  have h1 := congrArg String.data h
  simp only [entryNumberString, String.data_append, List.append_assoc] at h1
  exact padNum_inj 3
    (List.append_cancel_left (List.append_cancel_left (List.append_cancel_left h1)))

/-- `countEntriesOn` is the length of the per-date entry list. -/
theorem countEntriesOn_eq_length (journal : List JournalEntry) (d : CalDate) :
    countEntriesOn journal d = (entriesOn journal d).length := rfl

/-- Appending one entry extends exactly the entry list of its own date. -/
theorem entriesOn_append_mk (journal : List JournalEntry) (idv : Nat) (ed : CalDate)
    (num desc : String) (ref : Option String) (d : CalDate) :
    entriesOn (journal ++ [⟨idv, ed, num, desc, ref⟩]) d =
      entriesOn journal d ++ (if ed = d then [⟨idv, ed, num, desc, ref⟩] else []) := by
  by_cases hd : ed = d <;> simp [entriesOn, List.filter_append, List.filter, hd]

/-- Appending the entry numbered `count + 1` for its date preserves the
numbering invariant. -/
theorem numberingOK_append {journal : List JournalEntry} (h : NumberingOK journal)
    (idv : Nat) (ed : CalDate) (desc : String) (ref : Option String) :
    NumberingOK (journal ++
      [⟨idv, ed, entryNumberString ed (countEntriesOn journal ed + 1), desc, ref⟩]) := by
  intro d
  rw [entriesOn_append_mk]
  by_cases hd : ed = d
  · subst hd
    rw [if_pos rfl, List.map_append, List.length_append]
    simp only [List.map_cons, List.map_nil, List.length_cons, List.length_nil]
    rw [List.range'_concat, List.map_append, h ed]
    congr 1
    simp only [List.map_cons, List.map_nil]
    have harith : 1 + 1 * (entriesOn journal ed).length = countEntriesOn journal ed + 1 := by
      rw [countEntriesOn_eq_length]
      omega
    rw [harith]
  · rw [if_neg hd, List.append_nil]
    exact h d

/-- The journal after `create_journal_entry` is either unchanged (a rejected
posting) or extended by exactly the entry numbered `count + 1` for its date. -/
theorem create_journal_shape (db : DB) (ed : CalDate) (desc : String)
    (ts : List LineInput) (ref : Option String) :
    (create_journal_entry db ed desc ts ref).2.journal = db.journal ∨
    (create_journal_entry db ed desc ts ref).2.journal =
      db.journal ++ [⟨db.next_entry_id, ed,
        entryNumberString ed (countEntriesOn db.journal ed + 1), desc, ref⟩] := by
  by_cases hne : (ts.map (·.debit)).sum ≠ (ts.map (·.credit)).sum
  · left
    simp [create_journal_entry, hne]
  · cases hp : processLines db.next_entry_id ts db.accounts with
    | error e =>
      left
      simp [create_journal_entry, hne, hp]
    | ok pr =>
      obtain ⟨accs, ls⟩ := pr
      right
      simp [create_journal_entry, generate_entry_number, hne, hp]

/-- `create_journal_entry` preserves the numbering invariant. -/
theorem numberingOK_create (db : DB) (h : NumberingOK db.journal) (ed : CalDate)
    (desc : String) (ts : List LineInput) (ref : Option String) :
    NumberingOK (create_journal_entry db ed desc ts ref).2.journal := by
  rcases create_journal_shape db ed desc ts ref with hs | hs
  · rw [hs]; exact h
  · rw [hs]; exact numberingOK_append h _ _ _ _

/-- Sequential posting preserves the numbering invariant. -/
theorem numberingOK_runPostings (db : DB) (h : NumberingOK db.journal)
    (rs : List PostRequest) : NumberingOK (runPostings db rs).journal := by
  induction rs generalizing db with
  | nil => exact h
  | cons r rest ih =>
    exact ih _ (numberingOK_create db h r.entry_date r.description r.transactions r.reference)

/-- Claim C5: over any sequence of postings executed sequentially from a
fresh database, the entry numbers recorded for any fixed posting date are
exactly `JE-<YYYYMMDD>-<padded seq>` for seq = 1, 2, ... in posting order —
each generated as the zero-padded count of existing entries on that date
plus one — hence strictly increasing in posting order and pairwise distinct;
in particular the first two entries on 2024-01-05 are numbered
`JE-20240105-001` and `JE-20240105-002`. -/
theorem entry_numbers_unique_and_sequential (accounts : List Account)
    (rs : List PostRequest) (d : CalDate) :
    ((entriesOn (runPostings (initialDB accounts) rs).journal d).map
        JournalEntry.entry_number =
      (List.range' 1 (entriesOn (runPostings (initialDB accounts) rs).journal d).length).map
        (entryNumberString d)) ∧
    ((entriesOn (runPostings (initialDB accounts) rs).journal d).map
        JournalEntry.entry_number).Nodup ∧
    entryNumberString ⟨2024, 1, 5⟩ 1 = "JE-20240105-001" ∧
    entryNumberString ⟨2024, 1, 5⟩ 2 = "JE-20240105-002" := by
  have hOK := numberingOK_runPostings (initialDB accounts) (fun _ => rfl) rs
  refine ⟨hOK d, ?_, by decide, by decide⟩
  rw [hOK d]
  exact List.Nodup.map (fun a b hab => entryNumberString_inj d hab) (List.nodup_range' _ _)

end FinEasy
